import Mathlib

/-!
Verification development for the Herbie-Fully-Loaded AMY (Actual
Meteorological Year) pipeline.  The definitions below are shallow
embeddings of the Python functions in `src/ARCHIVE/utils.py` and
`src/gnomy/core.py`:

* the per-hour cache assembler `combine_cache_files`,
* the weather-code encoder `parse_weather_code` and its digit helpers,
* the unit/formula library (`cloud_cover_to_opaque_sky_cover`,
  `get_wind_direction`, `T_wet`),
* the days-since-last-snowfall derived column of
  `AMY._intermediate_calculations`, and
* the `AMY.__init__` constructor with Python attribute semantics.

Quantities handled only by comparisons and field arithmetic are embedded
over `ℚ`, so the encoders are executable; formulas that use transcendental
functions (`arctan`, `sqrt`) are embedded over `ℝ`.
-/

namespace HerbieLoaded

/-! ### Per-hour cache assembler (`src/ARCHIVE/utils.py`, `combine_cache_files`) -/

/-- Error raised when an expected per-hour cache file is absent.  In the
Python source the failing `pd.read_csv` raises `FileNotFoundError` whose
message names the missing file `%Y%m%d%H%M%S.csv`, i.e. exactly the missing
timestamp; the spec calls this failure `IncompleteCacheError`. -/
structure IncompleteCacheError where
  missing : ℕ
deriving DecidableEq

/-- The expected regular hourly grid `pd.date_range(start_date, end_date,
freq)`: timestamps are modelled as hour counts, the grid is
`[s, s+1, ..., e]`. -/
def dateRange (s e : ℕ) : List ℕ :=
  (List.range (e + 1 - s)).map (fun k => s + k)

/-- Sequential read of every expected cache file, in ascending timestamp
order (the Python path list sorted lexicographically is chronological,
because `%Y%m%d%H%M%S` is monotone in the timestamp).  The first missing
file aborts the whole read, exactly as the `pd.read_csv` loop does. -/
def readCache {α : Type} (cache : ℕ → Option α) :
    List ℕ → Except IncompleteCacheError (List α)
  | [] => Except.ok []
  | d :: ds =>
    match cache d with
    | none => Except.error ⟨d⟩
    | some r =>
      match readCache cache ds with
      | Except.error e => Except.error e
      | Except.ok rs => Except.ok (r :: rs)

/-- `combine_cache_files`: read every expected hour, concatenate, and index
the resulting table by the expected grid (the source then sorts the index,
which is already ascending). -/
def combine_cache_files {α : Type} (cache : ℕ → Option α) (s e : ℕ) :
    Except IncompleteCacheError (List (ℕ × α)) :=
  match readCache cache (dateRange s e) with
  | Except.error err => Except.error err
  | Except.ok rows => Except.ok ((dateRange s e).zip rows)

/-- The index column of the assembled table, when assembly succeeded. -/
def combinedIndex {α : Type} (cache : ℕ → Option α) (s e : ℕ) :
    Option (List ℕ) :=
  match combine_cache_files cache s e with
  | Except.ok rows => some (rows.map Prod.fst)
  | Except.error _ => none

/-! ### Weather-code encoder (`src/ARCHIVE/utils.py`, `parse_weather_code`) -/

/-- One slot of the Python character list `list("999999999")`.  Slots hold
strings, except that `code8_smoke_haze` returns a Python `int`, which the
main body stores unchanged. -/
inductive Cell where
  | s (c : String)
  | i (n : ℤ)
deriving DecidableEq

/-- Python `TypeError`, raised by `"".join` when the sequence holds a
non-string item. -/
inductive TypeError where
  | nonStrItem
deriving DecidableEq

/-- Python `"".join`: concatenates string items in order, raising
`TypeError` if any item is an `int`. -/
def join_cells : List Cell → Except TypeError String
  | [] => Except.ok ("")
  | Cell.s c :: rest =>
    match join_cells rest with
    | Except.ok tail => Except.ok (c ++ tail)
    | Except.error e => Except.error e
  | Cell.i _ :: _ => Except.error TypeError.nonStrItem

/-- Inputs consumed by `parse_weather_code`, one per keyword argument. -/
structure WeatherInputs where
  accumulated_precipitation : ℚ
  freezing_rain : Bool
  ice_pellets : Bool
  lightning : Bool
  rain : Bool
  snow : Bool
  pct_frozen_precipitation : ℚ
  visibility : ℚ
  wind_gust_speed : ℚ
  smoke : ℚ
deriving DecidableEq

/-- `code1_thunderstorms`: severity split at wind gust 25.7 m/s. -/
def code1_thunderstorms (lightning : Bool) (wind_gusts : ℚ) : String :=
  if lightning then (if wind_gusts > 25.7 then ("1") else ("0")) else ("9")

/-- `code2_rain`: intensity tiers at 2.5 and 7.6, crossed with the
freezing-rain flag. -/
def code2_rain (accumulated_precipitation : ℚ) (freezing_rain : Bool) : String :=
  if accumulated_precipitation > 0 then
    if !freezing_rain then
      if accumulated_precipitation < 2.5 then ("0")
      else if accumulated_precipitation < 7.6 then ("1")
      else ("2")
    else
      if accumulated_precipitation < 2.5 then ("6")
      else if accumulated_precipitation < 7.6 then ("7")
      else ("8")
  else ("9")

/-- `code3_combined_rain`, kept with the source's sequential assignments:
`code` starts as the Python `int` 9, the squall branch may assign a string,
and the drizzle `if`/`else` then assigns a string in every branch,
unconditionally overwriting whatever came before. -/
def code3_combined_rain (accumulated_precipitation pct_freezing_precipitation
    visibility wind_gust_speed : ℚ) : Cell :=
  let code : Cell := Cell.i 9
  let code : Cell :=
    if wind_gust_speed > 15 then
      if accumulated_precipitation < 2.5 then Cell.s ("0") else Cell.s ("1")
    else code
  let _unused := code
  let code : Cell :=
    if pct_freezing_precipitation ≤ 0 then
      if visibility > 1 then Cell.s ("3")
      else if visibility > 0.5 then Cell.s ("4")
      else Cell.s ("5")
    else
      if visibility > 1 then Cell.s ("6")
      else if visibility > 0.5 then Cell.s ("7")
      else Cell.s ("8")
  code

/-- `code4_snow_ice`: ice crystals are always "7", else snow tiers. -/
def code4_snow_ice (accumulated_precipitation : ℚ) (ice_pellets : Bool) : String :=
  if ice_pellets then ("7")
  else
    if accumulated_precipitation < 2.5 then ("0")
    else if accumulated_precipitation < 7.6 then ("1")
    else ("2")

/-- `code5_snow_showers`: snow grains, snow squalls (gust > 15 m/s), or
plain snow tiers. -/
def code5_snow_showers (accumulated_precipitation wind_gust_speed : ℚ)
    (ice_pellets : Bool) : String :=
  if ice_pellets then
    if accumulated_precipitation < 2.5 then ("6") else ("7")
  else if wind_gust_speed > 15 then
    if accumulated_precipitation < 2.5 then ("3")
    else if accumulated_precipitation < 7.6 then ("4")
    else ("5")
  else
    if accumulated_precipitation < 2.5 then ("0")
    else if accumulated_precipitation < 7.6 then ("1")
    else ("2")

/-- `code6_sleet`: ice-pellet intensity tiers. -/
def code6_sleet (accumulated_precipitation : ℚ) : String :=
  if accumulated_precipitation < 2.5 then ("0")
  else if accumulated_precipitation < 7.6 then ("1")
  else ("2")

/-- `code8_smoke_haze`: returns a Python `int` (9, 1, or 0), with
thresholds 5e-4 and 1e-5 kg/m^3. -/
def code8_smoke_haze (smoke : ℚ) : ℤ :=
  if smoke > 5e-4 then 1
  else if smoke > 1e-5 then 0
  else 9

/-- Main body of `parse_weather_code`: the character list after every
slot-write.  Guards reproduce the source exactly, including the smoke gate
`smoke > 1e5` and the `int` stored at index 7. -/
def weather_code_cells (w : WeatherInputs) : List Cell :=
  let wc : List Cell := List.replicate 9 (Cell.s ("9"))
  let wc : List Cell :=
    if w.lightning then
      wc.set 0 (Cell.s (code1_thunderstorms w.lightning w.wind_gust_speed))
    else wc
  let wc : List Cell :=
    if w.accumulated_precipitation > 0 then
      let wc : List Cell :=
        if w.rain then
          (wc.set 1 (Cell.s (code2_rain w.accumulated_precipitation w.freezing_rain))).set 2
            (code3_combined_rain w.accumulated_precipitation
              w.pct_frozen_precipitation w.visibility w.wind_gust_speed)
        else wc
      let wc : List Cell :=
        if w.snow then
          (wc.set 3 (Cell.s (code4_snow_ice w.accumulated_precipitation w.ice_pellets))).set 4
            (Cell.s (code5_snow_showers w.accumulated_precipitation
              w.wind_gust_speed w.ice_pellets))
        else wc
      let wc : List Cell :=
        if w.ice_pellets then
          let ice_code := code6_sleet w.accumulated_precipitation
          (wc.set 5 (Cell.s ice_code)).set 8 (Cell.s ice_code)
        else wc
      wc
    else wc
  if w.smoke > 1e5 then wc.set 7 (Cell.i (code8_smoke_haze w.smoke)) else wc

/-- `parse_weather_code`: the final `"".join` over the slot list. -/
def parse_weather_code (w : WeatherInputs) : Except TypeError String :=
  join_cells (weather_code_cells w)

/-- Slot at a given index of the encoder's character list. -/
def cellAt (idx : ℕ) (w : WeatherInputs) : Cell :=
  (weather_code_cells w).getD idx (Cell.s ("9"))

/-- Recognizer for the drizzle family of third-character codes. -/
def isDrizzleCode : Cell → Bool
  | Cell.s c => c == ("3") || c == ("4") || c == ("5") ||
      c == ("6") || c == ("7") || c == ("8")
  | Cell.i _ => false

/-- Recognizer for the squall family of third-character codes. -/
def isSquallCode : Cell → Bool
  | Cell.s c => c == ("0") || c == ("1")
  | Cell.i _ => false

/-! ### Unit/formula library (`src/ARCHIVE/utils.py`) -/

/-- `np.clip(x, lo, hi)`. -/
def npClip (x lo hi : ℚ) : ℚ :=
  if x < lo then lo else if x > hi then hi else x

/-- `cloud_cover_to_opaque_sky_cover` (ARCHIVE variant): subtract the
assumed-translucent share of the cover not accounted for by low+mid cover,
then divide by 10.  The translucency ratio defaults to 0.5 at the Python
call sites. -/
def cloud_cover_to_opaque_sky_cover (lcc mcc hcc tcc tcc_translucent : ℚ) : ℚ :=
  let translucent_cloud_cover := npClip (tcc - lcc - mcc) 0 100 * tcc_translucent
  (tcc - translucent_cloud_cover) / 10

namespace scratch

/-- `cloud_cover_to_opaque_sky_cover` (notebooks/scratch/common.py
variant): ratio 0.3, no upper clip, and no division by 10. -/
def cloud_cover_to_opaque_sky_cover (lcc mcc hcc tcc : ℚ) : ℚ :=
  let translucent_cloud_cover := max (tcc - lcc - mcc) 0
  tcc - translucent_cloud_cover * 0.3

end scratch

/-- `np.arctan2(y, x)`: the standard C `atan2`, embedded piecewise on ℝ
(signed zeros do not exist on ℝ, so the `x = 0` rows collapse). -/
noncomputable def arctan2 (y x : ℝ) : ℝ :=
  if 0 < x then Real.arctan (y / x)
  else if x < 0 then
    (if 0 ≤ y then Real.arctan (y / x) + Real.pi
     else Real.arctan (y / x) - Real.pi)
  else
    (if 0 < y then Real.pi / 2
     else if y < 0 then -(Real.pi / 2)
     else 0)

/-- `get_wind_direction` (ARCHIVE variant): `np.rad2deg(np.arctan2(e, n))`;
the wrap-to-[0,360) branch is commented out in the source. -/
noncomputable def get_wind_direction (e n : ℝ) : ℝ :=
  arctan2 e n * (180 / Real.pi)

/-- Spec-level error kind for inputs outside a formula's validated range;
the Python source raises `ValueError` with the message recorded in each
constructor's doc string. -/
inductive DomainError where
  /-- "RH must be greater than 5% for this approximation" -/
  | rhTooLow
  /-- "T_dry must be between -20 and 50 C" -/
  | tdryOutOfRange
  /-- "T_dry and RH combination is not valid for this approximation" -/
  | invalidCombination
deriving DecidableEq

/-- The RH-ceiling clamp inside `T_wet`: `if RH > 99: RH = 99`. -/
noncomputable def clampRH (RH : ℝ) : ℝ :=
  if RH > 99 then 99 else RH

/-- The closed-form Stull 2011 wet-bulb fit, in degrees Celsius, as written
in the source (`**` is real exponentiation). -/
noncomputable def stullWetBulb (T_dryC RH : ℝ) : ℝ :=
  20 * Real.arctan (0.151977 * (RH + 8.313659) ^ (0.5 : ℝ))
    + Real.arctan (T_dryC + RH)
    - Real.arctan (RH - 1.676331)
    - 0.00391838 * RH ^ (1.5 : ℝ) * Real.arctan (0.023101 * RH)
    - 4.686035

/-- `T_wet`: convert to Celsius, then validate in source order — RH floor
(raising when estimation is disallowed), RH ceiling clamp, `T_dry` bounds,
then the diagonal validity line (evaluated on the clamped RH); in the
permitted estimation cases the identity estimate `T_wet = T_dry` is
returned, otherwise the Stull fit, both converted back to Kelvin. -/
noncomputable def T_wet (T_dry RH : ℝ) (allow_estimation : Bool) :
    Except DomainError ℝ :=
  if RH < 5 ∧ allow_estimation = false then
    Except.error DomainError.rhTooLow
  else if T_dry - 273.15 < -20 ∨ T_dry - 273.15 > 50 then
    Except.error DomainError.tdryOutOfRange
  else if (-75 * (T_dry - 273.15) - 31 * clampRH RH + 825 < 0)
      ∧ allow_estimation = false then
    Except.error DomainError.invalidCombination
  else if RH < 5 ∨ (-75 * (T_dry - 273.15) - 31 * clampRH RH + 825 < 0) then
    Except.ok ((T_dry - 273.15) + 273.15)
  else
    Except.ok (stullWetBulb (T_dry - 273.15) (clampRH RH) + 273.15)

/-- Boolean error recognizer on `Except`. -/
def isErr {ε α : Type} : Except ε α → Bool
  | Except.error _ => true
  | Except.ok _ => false

/-! ### Days since last snowfall (`src/gnomy/core.py`,
`AMY._intermediate_calculations`) -/

/-- Daily `csnow` total over the rows of the series actually present
(`groupby(index.date)["csnow"].transform("sum")`): the series holds hours
`0 .. N-1`, day `d` covers hours `24*d .. 24*d+23`. -/
def snowDaySum (csnow : ℕ → ℚ) (N d : ℕ) : ℚ :=
  ∑ h ∈ Finset.range 24, if 24 * d + h < N then csnow (24 * d + h) else 0

/-- `snow_day` flag for the row at hour `t`: some snow indicator fired on
that row's calendar day. -/
def snow_day (csnow : ℕ → ℚ) (N t : ℕ) : Bool :=
  decide (0 < snowDaySum csnow N (t / 24))

/-- `merge_asof(..., direction="backward")` on `last_snow_day`: the most
recent row at or before `t` whose day is a snow day (`None` when there is
no such row, pandas `NaT`). -/
def last_snow_day (csnow : ℕ → ℚ) (N : ℕ) : ℕ → Option ℕ
  | 0 => if snow_day csnow N 0 then some 0 else none
  | t + 1 =>
    if snow_day csnow N (t + 1) then some (t + 1) else last_snow_day csnow N t

/-- The stored "Days Since Last Snowfall [Days]" column:
`(index - last_snow_day).dt.days`, whole elapsed days.  The subsequent
`.clip(0, 99)` in the source discards its result, so the stored column is
NOT clipped. -/
def days_since_last_snowfall (csnow : ℕ → ℚ) (N t : ℕ) : Option ℤ :=
  (last_snow_day csnow N t).map (fun s0 => (((t - s0) / 24 : ℕ) : ℤ))

/-- Concrete series for the snowfall claims: snow during every hour of day
0, never again. -/
def csnowSingle (t : ℕ) : ℚ :=
  if t < 24 then 1 else 0

/-! ### `AMY.__init__` (`src/gnomy/core.py`) with Python attribute
semantics -/

/-- Attribute slots of an `AMY` instance while `__init__` runs; every slot
starts unset. -/
structure AMYState where
  latitude : Option ℚ
  longitude : Option ℚ
  name : Option String
deriving DecidableEq

/-- Python exception kinds reachable from `AMY.__init__`. -/
inductive PyError where
  | attributeError (attr : String)
  | assertionError (msg : String)
  | typeError (msg : String)
deriving DecidableEq

/-- Read of `self.<attr>`: raises `AttributeError` when the slot was never
assigned. -/
def getAttr {β : Type} (v : Option β) (attr : String) : Except PyError β :=
  match v with
  | none => Except.error (PyError.attributeError attr)
  | some x => Except.ok x

/-- Rendering of a rational with two decimals, for the dead-code default
name `f"{lat:.2f} N {lon:.2f} E"`. -/
def format2dec (q : ℚ) : String :=
  let c : ℤ := ⌊q * 100 + 1 / 2⌋
  let sign := if c < 0 then ("-") else ("")
  let a := c.natAbs
  sign ++ toString (a / 100) ++ (".") ++
    (if a % 100 < 10 then ("0") else ("")) ++ toString (a % 100)

/-- Default site name built from the coordinates. -/
def amyDefaultName (lat lon : ℚ) : String :=
  format2dec lat ++ (" N ") ++ format2dec lon ++ (" E")

/-- `AMY.__init__`: the body in source order.  Both validation `assert`s
read `self.latitude` / `self.longitude` before those attributes are ever
assigned (assignment happens only after validation). -/
def AMY_init (latitude longitude : Option ℚ) (name : Option String) :
    Except PyError AMYState := do
  let self : AMYState := ⟨none, none, none⟩
  let lat0 ← getAttr self.latitude ("latitude")
  if ¬(21.14 ≤ lat0 ∧ lat0 ≤ 52.6) then
    throw (PyError.assertionError
      ("latitude must be between 21.14 N and 52.6 N for HRRR"))
  let lon0 ← getAttr self.longitude ("longitude")
  if ¬((225.9 ≤ lon0 ∧ lon0 ≤ 299) ∨ (-134.1 ≤ lon0 ∧ lon0 ≤ -61)) then
    throw (PyError.assertionError
      ("longitude must be between (225.9 - 299) or (-134.1 - -61) for HRRR"))
  let self : AMYState :=
    if lon0 < 0 then { self with longitude := some (360 + lon0) } else self
  let self : AMYState := { self with latitude := latitude }
  let self : AMYState := { self with longitude := longitude }
  match name with
  | some n => pure { self with name := some n }
  | none =>
    match self.latitude, self.longitude with
    | some la, some lo => pure { self with name := some (amyDefaultName la lo) }
    | _, _ =>
      throw (PyError.typeError
        ("unsupported format string passed to NoneType.__format__"))

/-! ## Theorems -/

/-- The encoder's slot list always has nine entries. -/
theorem weather_code_cells_length (w : WeatherInputs) :
    (weather_code_cells w).length = 9 := by
  unfold weather_code_cells
  split_ifs <;> simp

/-- The eighth slot is the default unless the main-body smoke gate
`smoke > 1e5` passes, in which case it holds the integer returned by
`code8_smoke_haze`. -/
theorem cellAt7_eq (w : WeatherInputs) :
    cellAt 7 w =
      if w.smoke > 1e5 then Cell.i (code8_smoke_haze w.smoke)
      else Cell.s ("9") := by
  unfold cellAt weather_code_cells
  split_ifs <;> rfl

/-- Claim C3: with no lightning, no accumulated precipitation and smoke at
or below the documented gate, the encoder returns exactly the default
9-character string. -/
theorem C3_default_weather_code (w : WeatherInputs)
    (hl : w.lightning = false)
    (hp : w.accumulated_precipitation ≤ 0)
    (hs : w.smoke ≤ 1e-4) :
    parse_weather_code w = Except.ok ("999999999") := by
  have hp' : ¬w.accumulated_precipitation > 0 := not_lt.mpr hp
  have hs' : ¬w.smoke > 1e5 := by
    have hgap : (1e-4 : ℚ) < 1e5 := by norm_num
    intro hcon
    linarith
  unfold parse_weather_code weather_code_cells
  simp only [hl, hp', hs', Bool.false_eq_true, if_false]
  rfl

/-- Witness for C3 at the all-clear input. -/
theorem C3_default_weather_code_witness :
    parse_weather_code
        (⟨0, false, false, false, false, false, 0, 0, 0, 0⟩ : WeatherInputs) =
      Except.ok ("999999999") :=
  C3_default_weather_code _ rfl (by norm_num) (by norm_num)

/-- Claim C4: if the smoke/haze slot differs from the default, the smoke
density exceeds the gate 1e-4 and the stored value is chosen by the 5e-4
and 1e-5 thresholds (haze 1, smoke 0, none 9). -/
theorem C4_smoke_haze_thresholds (w : WeatherInputs)
    (h : cellAt 7 w ≠ Cell.s ("9")) :
    w.smoke > 1e-4 ∧
      cellAt 7 w =
        Cell.i (if w.smoke > 5e-4 then 1 else if w.smoke > 1e-5 then 0 else 9) := by
  have h7 := cellAt7_eq w
  by_cases hg : w.smoke > 1e5
  · refine ⟨?_, ?_⟩
    · have hgap : (1e-4 : ℚ) < 1e5 := by norm_num
      linarith
    · rw [h7, if_pos hg]
      simp [code8_smoke_haze]
  · exact absurd (by rw [h7, if_neg hg]) h

/-- Witness for C4 at a smoke density above the main-body gate. -/
theorem C4_smoke_haze_thresholds_witness :
    (⟨0, false, false, false, false, false, 0, 0, 0, 200000⟩ :
        WeatherInputs).smoke > 1e-4 ∧
      cellAt 7 (⟨0, false, false, false, false, false, 0, 0, 0, 200000⟩ :
          WeatherInputs) =
        Cell.i (if (⟨0, false, false, false, false, false, 0, 0, 0, 200000⟩ :
            WeatherInputs).smoke > 5e-4 then 1
          else if (⟨0, false, false, false, false, false, 0, 0, 0, 200000⟩ :
              WeatherInputs).smoke > 1e-5 then 0 else 9) :=
  C4_smoke_haze_thresholds _
    (by rw [cellAt7_eq]; norm_num; exact fun hcon => Cell.noConfusion hcon)

/-- Joining a slot list that contains an integer raises `TypeError`. -/
theorem join_cells_error_of_mem_int (l : List Cell) (n : ℤ)
    (hmem : Cell.i n ∈ l) :
    join_cells l = Except.error TypeError.nonStrItem := by
  induction l with
  | nil => cases hmem
  | cons c rest ih =>
    rcases List.mem_cons.mp hmem with hc | hrest
    · rw [← hc]
      rfl
    · cases c with
      | s str =>
        unfold join_cells
        rw [ih hrest]
      | i m => rfl

/-- Claim C9: whenever the main-body smoke guard passes, the encoder
raises `TypeError` instead of returning a string, because the integer from
`code8_smoke_haze` reaches the final string join. -/
theorem C9_smoke_type_error (w : WeatherInputs)
    (hs : w.smoke > 1e5) :
    parse_weather_code w = Except.error TypeError.nonStrItem := by
  have h7 : cellAt 7 w = Cell.i (code8_smoke_haze w.smoke) := by
    rw [cellAt7_eq, if_pos hs]
  have h7lt : 7 < (weather_code_cells w).length := by
    rw [weather_code_cells_length]
    norm_num
  have hmem : (weather_code_cells w).getD 7 (Cell.s ("9")) ∈
      weather_code_cells w := by
    rw [List.getD_eq_getElem _ _ h7lt]
    exact List.getElem_mem h7lt
  rw [cellAt] at h7
  rw [h7] at hmem
  exact join_cells_error_of_mem_int _ _ hmem

/-- Witness for C9: a concrete input over the smoke guard. -/
theorem C9_smoke_type_error_witness :
    parse_weather_code
        (⟨0, false, false, false, false, false, 0, 0, 0, 200000⟩ :
          WeatherInputs) =
      Except.error TypeError.nonStrItem :=
  C9_smoke_type_error _ (by norm_num)

/-- When the rain digits are written, the third slot holds exactly the
result of `code3_combined_rain`. -/
theorem cellAt2_eq (w : WeatherInputs)
    (hp : w.accumulated_precipitation > 0) (hr : w.rain = true) :
    cellAt 2 w =
      code3_combined_rain w.accumulated_precipitation
        w.pct_frozen_precipitation w.visibility w.wind_gust_speed := by
  unfold cellAt weather_code_cells
  simp only [hp, hr, if_true]
  split_ifs <;> rfl

/-- Claim C10: whenever the rain digits are written, the third character
is a drizzle code ("3"-"8") and never a squall code ("0"/"1"), because the
drizzle branch of `code3_combined_rain` unconditionally overwrites the
squall branch. -/
theorem C10_drizzle_overwrites_squall (w : WeatherInputs)
    (hp : w.accumulated_precipitation > 0) (hr : w.rain = true) :
    isDrizzleCode (cellAt 2 w) = true ∧ isSquallCode (cellAt 2 w) = false := by
  rw [cellAt2_eq w hp hr]
  unfold code3_combined_rain
  split_ifs <;> exact ⟨rfl, rfl⟩

/-- Witness for C10 at a moderate-rain input. -/
theorem C10_drizzle_overwrites_squall_witness :
    isDrizzleCode (cellAt 2
        (⟨5, false, false, false, true, false, 0, 2, 0, 0⟩ : WeatherInputs)) =
        true ∧
      isSquallCode (cellAt 2
        (⟨5, false, false, false, true, false, 0, 2, 0, 0⟩ : WeatherInputs)) =
        false :=
  C10_drizzle_overwrites_squall _ (by norm_num) rfl

/-- Reading a grid with a unique missing hour fails naming exactly that
hour (the first and only missing file hit by the sequential read). -/
theorem readCache_error_of_single_missing {α : Type} (cache : ℕ → Option α)
    (t : ℕ) (l : List ℕ) (hmem : t ∈ l) (hnone : cache t = none)
    (hrest : ∀ u ∈ l, u ≠ t → (cache u).isSome) :
    readCache cache l = Except.error ⟨t⟩ := by
  induction l with
  | nil => cases hmem
  | cons d ds ih =>
    unfold readCache
    by_cases hd : d = t
    · subst hd
      rw [hnone]
    · have hsome : (cache d).isSome :=
        hrest d (List.mem_cons_self d ds) hd
      obtain ⟨r, hr⟩ := Option.isSome_iff_exists.mp hsome
      rw [hr]
      have ht' : t ∈ ds := by
        rcases List.mem_cons.mp hmem with hEq | hIn
        · exact absurd hEq.symm hd
        · exact hIn
      rw [ih ht' (fun u hu hut => hrest u (List.mem_cons_of_mem _ hu) hut)]

/-- Reading a fully cached grid succeeds with one record per expected
hour. -/
theorem readCache_ok_of_complete {α : Type} (cache : ℕ → Option α)
    (l : List ℕ) (hfull : ∀ u ∈ l, (cache u).isSome) :
    ∃ rows, readCache cache l = Except.ok rows ∧ rows.length = l.length := by
  induction l with
  | nil => exact ⟨[], rfl, rfl⟩
  | cons d ds ih =>
    have hsome : (cache d).isSome := hfull d (List.mem_cons_self d ds)
    obtain ⟨r, hr⟩ := Option.isSome_iff_exists.mp hsome
    obtain ⟨rows, hok, hlen⟩ :=
      ih (fun u hu => hfull u (List.mem_cons_of_mem _ hu))
    refine ⟨r :: rows, ?_, ?_⟩
    · unfold readCache
      rw [hr, hok]
    · simp [hlen]

/-- Claim C1: with exactly one expected hour missing from the cache the
assembler fails naming exactly that hour and yields no table; with a
complete cache the assembled index equals the requested grid, which is
strictly ascending (no duplicates, no reordering). -/
theorem C1_cache_assembler {α : Type} (cache cache2 : ℕ → Option α)
    (s e t : ℕ)
    (hmem : t ∈ dateRange s e) (hnone : cache t = none)
    (hrest : ∀ u ∈ dateRange s e, u ≠ t → (cache u).isSome)
    (hfull : ∀ u ∈ dateRange s e, (cache2 u).isSome) :
    combine_cache_files cache s e = Except.error ⟨t⟩
      ∧ combinedIndex cache2 s e = some (dateRange s e)
      ∧ (dateRange s e).Pairwise (· < ·) := by
  refine ⟨?_, ?_, ?_⟩
  · unfold combine_cache_files
    rw [readCache_error_of_single_missing cache t _ hmem hnone hrest]
  · obtain ⟨rows, hok, hlen⟩ := readCache_ok_of_complete cache2 _ hfull
    unfold combinedIndex combine_cache_files
    rw [hok]
    simp [List.map_fst_zip _ _ (le_of_eq hlen.symm)]
  · unfold dateRange
    exact List.Pairwise.map _ (fun a b hab => by omega)
      (List.pairwise_lt_range _)

/-- Witness for C1: hour 2 missing from the first cache, second cache
complete, over the grid 0..4. -/
theorem C1_cache_assembler_witness :
    combine_cache_files (fun u => if u = 2 then (none : Option ℕ) else some 0)
        0 4 = Except.error ⟨2⟩
      ∧ combinedIndex (fun _ : ℕ => (some 0 : Option ℕ)) 0 4 =
          some (dateRange 0 4)
      ∧ (dateRange 0 4).Pairwise (· < ·) :=
  C1_cache_assembler _ _ 0 4 2 (by decide) (by decide) (by decide) (by decide)

/-- Counterexample to claim C5 as stated: at `(lcc,mcc,hcc,tcc) =
(5,5,0,10)` (valid, `lcc+mcc = tcc`) the ARCHIVE function returns 1, not
`tcc = 10`, because it divides by 10 to convert percent to tenths. -/
theorem C5_counterexample :
    (0 : ℚ) ≤ 5 ∧ (0 : ℚ) ≤ 5 ∧ (5 : ℚ) + 5 ≤ 10 ∧ (10 : ℚ) = 5 + 5 ∧
      cloud_cover_to_opaque_sky_cover 5 5 0 10 (1 / 2) = 1 ∧
      cloud_cover_to_opaque_sky_cover 5 5 0 10 (1 / 2) ≠ 10 := by
  norm_num [cloud_cover_to_opaque_sky_cover, npClip]

/-- Claim C5 as amended: for valid covers with `lcc + mcc ≤ tcc` the
ARCHIVE opaque sky cover lies in `[0, tcc]` (never negative), and when
`tcc = lcc + mcc` it equals `tcc / 10` (the percent-to-tenths rescale);
the scratch/common.py variant returns `tcc` exactly in that case. -/
theorem C5_opaque_sky_cover_amended
    (lcc mcc hcc tcc lcc2 mcc2 hcc2 tcc2 : ℚ)
    (h1 : 0 ≤ lcc) (h2 : 0 ≤ mcc) (h3 : lcc + mcc ≤ tcc)
    (h4 : tcc2 = lcc2 + mcc2) :
    0 ≤ cloud_cover_to_opaque_sky_cover lcc mcc hcc tcc (1 / 2)
      ∧ cloud_cover_to_opaque_sky_cover lcc mcc hcc tcc (1 / 2) ≤ tcc
      ∧ cloud_cover_to_opaque_sky_cover lcc2 mcc2 hcc2 tcc2 (1 / 2) = tcc2 / 10
      ∧ scratch.cloud_cover_to_opaque_sky_cover lcc2 mcc2 hcc2 tcc2 = tcc2 := by
  have htcc : 0 ≤ tcc := by linarith
  have hx2 : tcc2 - lcc2 - mcc2 = 0 := by linarith
  refine ⟨?_, ?_, ?_, ?_⟩
  · unfold cloud_cover_to_opaque_sky_cover npClip
    split_ifs <;> linarith
  · unfold cloud_cover_to_opaque_sky_cover npClip
    split_ifs <;> linarith
  · unfold cloud_cover_to_opaque_sky_cover npClip
    rw [hx2]
    norm_num
  · unfold scratch.cloud_cover_to_opaque_sky_cover
    rw [hx2]
    norm_num

/-- Witness for C5's amended statement at concrete covers. -/
theorem C5_opaque_sky_cover_amended_witness :
    0 ≤ cloud_cover_to_opaque_sky_cover 2 3 0 10 (1 / 2)
      ∧ cloud_cover_to_opaque_sky_cover 2 3 0 10 (1 / 2) ≤ 10
      ∧ cloud_cover_to_opaque_sky_cover 5 5 0 10 (1 / 2) = 10 / 10
      ∧ scratch.cloud_cover_to_opaque_sky_cover 5 5 0 10 = 10 :=
  C5_opaque_sky_cover_amended 2 3 0 10 5 5 0 10
    (by norm_num) (by norm_num) (by norm_num) (by norm_num)

/-- Claim C2: `T_wet` errors exactly when `T_dry` in Celsius is outside
`[-20, 50]` (regardless of `allow_estimation`), or `RH < 5` with
estimation disallowed, or the point lies below the diagonal validity line
(on the RH clamped to 99) with estimation disallowed; the checks fire in
source order (RH floor, then `T_dry` bounds, then the line), and every
permitted estimation case returns the identity estimate `T_wet = T_dry`. -/
theorem C2_Twet_domain (T_dry RH : ℝ) (ae : Bool) :
    (isErr (T_wet T_dry RH ae) = true ↔
        ((T_dry - 273.15 < -20 ∨ T_dry - 273.15 > 50)
          ∨ (RH < 5 ∧ ae = false)
          ∨ ((-75 * (T_dry - 273.15) - 31 * clampRH RH + 825 < 0)
              ∧ ae = false)))
    ∧ (RH < 5 ∧ ae = false →
        T_wet T_dry RH ae = Except.error DomainError.rhTooLow)
    ∧ (¬(RH < 5 ∧ ae = false) →
        (T_dry - 273.15 < -20 ∨ T_dry - 273.15 > 50) →
        T_wet T_dry RH ae = Except.error DomainError.tdryOutOfRange)
    ∧ (¬(RH < 5 ∧ ae = false) →
        ¬(T_dry - 273.15 < -20 ∨ T_dry - 273.15 > 50) →
        (-75 * (T_dry - 273.15) - 31 * clampRH RH + 825 < 0) → ae = false →
        T_wet T_dry RH ae = Except.error DomainError.invalidCombination)
    ∧ (ae = true →
        ¬(T_dry - 273.15 < -20 ∨ T_dry - 273.15 > 50) →
        (RH < 5 ∨ (-75 * (T_dry - 273.15) - 31 * clampRH RH + 825 < 0)) →
        T_wet T_dry RH ae = Except.ok T_dry) := by
  unfold T_wet
  split_ifs with h1 h2 h3 h4
  · refine ⟨?_, ?_, ?_, ?_, ?_⟩
    · simp only [isErr]
      tauto
    · intro _
      rfl
    · intro hn _
      exact absurd h1 hn
    · intro hn _ _ _
      exact absurd h1 hn
    · intro hae _ _
      rw [hae] at h1
      simp at h1
  · refine ⟨?_, ?_, ?_, ?_, ?_⟩
    · simp only [isErr]
      tauto
    · intro hc
      exact absurd hc h1
    · intro _ _
      rfl
    · intro _ hn _ _
      exact absurd h2 hn
    · intro _ hn _
      exact absurd h2 hn
  · refine ⟨?_, ?_, ?_, ?_, ?_⟩
    · simp only [isErr]
      tauto
    · intro hc
      exact absurd hc h1
    · intro _ hT
      exact absurd hT h2
    · intro _ _ _ _
      rfl
    · intro hae _ _
      rw [hae] at h3
      simp at h3
  · refine ⟨?_, ?_, ?_, ?_, ?_⟩
    · simp only [isErr]
      constructor
      · intro hcon
        cases hcon
      · rintro (hT | hRH | hLine)
        · exact absurd hT h2
        · exact absurd hRH h1
        · exact absurd hLine h3
    · intro hc
      exact absurd hc h1
    · intro _ hT
      exact absurd hT h2
    · intro _ _ hline hfa
      exact absurd ⟨hline, hfa⟩ h3
    · intro _ _ _
      congr 1
      ring
  · refine ⟨?_, ?_, ?_, ?_, ?_⟩
    · simp only [isErr]
      constructor
      · intro hcon
        cases hcon
      · rintro (hT | hRH | hLine)
        · exact absurd hT h2
        · exact absurd hRH h1
        · exact absurd hLine h3
    · intro hc
      exact absurd hc h1
    · intro _ hT
      exact absurd hT h2
    · intro _ _ hline hfa
      exact absurd ⟨hline, hfa⟩ h3
    · intro _ _ hEst
      exact absurd hEst h4

/-- Witness for C2 at `T_dry = 333.15 K` (60 C), `RH = 50`, estimation
allowed: the instantiated characterization, whose error disjunction is
realized by the out-of-range `T_dry`. -/
theorem C2_Twet_domain_witness :
    (isErr (T_wet 333.15 50 true) = true ↔
        (((333.15 : ℝ) - 273.15 < -20 ∨ (333.15 : ℝ) - 273.15 > 50)
          ∨ ((50 : ℝ) < 5 ∧ true = false)
          ∨ ((-75 * ((333.15 : ℝ) - 273.15) - 31 * clampRH 50 + 825 < 0)
              ∧ true = false)))
    ∧ ((50 : ℝ) < 5 ∧ true = false →
        T_wet 333.15 50 true = Except.error DomainError.rhTooLow)
    ∧ (¬((50 : ℝ) < 5 ∧ true = false) →
        ((333.15 : ℝ) - 273.15 < -20 ∨ (333.15 : ℝ) - 273.15 > 50) →
        T_wet 333.15 50 true = Except.error DomainError.tdryOutOfRange)
    ∧ (¬((50 : ℝ) < 5 ∧ true = false) →
        ¬((333.15 : ℝ) - 273.15 < -20 ∨ (333.15 : ℝ) - 273.15 > 50) →
        (-75 * ((333.15 : ℝ) - 273.15) - 31 * clampRH 50 + 825 < 0) →
        true = false →
        T_wet 333.15 50 true = Except.error DomainError.invalidCombination)
    ∧ (true = true →
        ¬((333.15 : ℝ) - 273.15 < -20 ∨ (333.15 : ℝ) - 273.15 > 50) →
        ((50 : ℝ) < 5 ∨
          (-75 * ((333.15 : ℝ) - 273.15) - 31 * clampRH 50 + 825 < 0)) →
        T_wet 333.15 50 true = Except.ok 333.15) :=
  C2_Twet_domain 333.15 50 true

/-- The snow-free days of `csnowSingle` contribute a zero daily total. -/
theorem snowDaySum_csnowSingle_eq_zero (N d : ℕ) (hd : 1 ≤ d) :
    snowDaySum csnowSingle N d = 0 := by
  unfold snowDaySum
  apply Finset.sum_eq_zero
  intro h _
  have hge : ¬(24 * d + h < 24) := by omega
  simp [csnowSingle, hge]

/-- The snow day of `csnowSingle` (day 0) totals 24 units of snow over
the series. -/
theorem snowDaySum_csnowSingle_day0 :
    snowDaySum csnowSingle 2904 0 = 24 := by
  unfold snowDaySum
  have hterm : ∀ h ∈ Finset.range 24,
      (if 24 * 0 + h < 2904 then csnowSingle (24 * 0 + h) else 0) = (1 : ℚ) := by
    intro h hh
    have hlt := Finset.mem_range.mp hh
    have hin : h < 2904 := by omega
    simp [csnowSingle, hin, hlt]
  rw [Finset.sum_congr rfl hterm]
  simp

/-- Rows of `csnowSingle`'s series from hour 23 onward all see hour 23 of
the snow day as the most recent snow-day row. -/
theorem last_snow_day_csnowSingle (t : ℕ) (ht : 23 ≤ t) :
    last_snow_day csnowSingle 2904 t = some 23 := by
  induction t, ht using Nat.le_induction with
  | base =>
    have hsd : snow_day csnowSingle 2904 23 = true := by
      unfold snow_day
      have h0 : (23 : ℕ) / 24 = 0 := by norm_num
      rw [h0, snowDaySum_csnowSingle_day0]
      norm_num
    show last_snow_day csnowSingle 2904 (22 + 1) = some 23
    rw [last_snow_day]
    simp [hsd]
  | succ t ht ih =>
    have hd : 1 ≤ (t + 1) / 24 := Nat.one_le_div_iff (by norm_num) |>.mpr
      (by omega)
    have hsd : snow_day csnowSingle 2904 (t + 1) = false := by
      unfold snow_day
      rw [snowDaySum_csnowSingle_eq_zero 2904 _ hd]
      simp
    rw [last_snow_day, hsd]
    simp [ih]

/-- Claim C6 (code evaluation): in a series with snow only on day 0 and a
120-day snow-free span, the stored days-since-last-snowfall value at day
120 is 119 — exceeding the 99 bound the spec requires, because the
source's `.clip(0, 99)` discards its result. -/
theorem C6_snow_clip_discarded :
    days_since_last_snowfall csnowSingle 2904 2880 = some 119
      ∧ ¬((119 : ℤ) ≤ 99) := by
  constructor
  · unfold days_since_last_snowfall
    rw [last_snow_day_csnowSingle 2880 (by norm_num)]
    norm_num
  · decide

/-- Negative east components give negative `atan2` values. -/
theorem arctan2_neg_of_fst_neg (y x : ℝ) (hy : y < 0) : arctan2 y x < 0 := by
  unfold arctan2
  split_ifs with h1 h2 h3 h4 <;>
    first
      | linarith [Real.pi_pos]
      | (have hq : y / x < 0 := div_neg_of_neg_of_pos hy h1
         have hm := Real.arctan_strictMono hq
         rw [Real.arctan_zero] at hm
         linarith)
      | linarith [Real.arctan_lt_pi_div_two (y / x), Real.pi_pos]

/-- Claim C7: wind direction is `atan2(east, north)` in degrees with no
wrap to `[0, 360)`, so a westward component yields a negative direction. -/
theorem C7_wind_direction_no_wrap (e n : ℝ) (he : e < 0) :
    get_wind_direction e n = (180 / Real.pi) * arctan2 e n
      ∧ get_wind_direction e n < 0 := by
  constructor
  · unfold get_wind_direction
    ring
  · unfold get_wind_direction
    have h1 := arctan2_neg_of_fst_neg e n he
    have h2 : (0 : ℝ) < 180 / Real.pi := by positivity
    exact mul_neg_of_neg_of_pos h1 h2

/-- Witness for C7 at a due-west wind. -/
theorem C7_wind_direction_no_wrap_witness :
    get_wind_direction (-1) 0 = (180 / Real.pi) * arctan2 (-1) 0
      ∧ get_wind_direction (-1) 0 < 0 :=
  C7_wind_direction_no_wrap (-1) 0 (by norm_num)

/-- Claim C8: for every combination of constructor arguments the `AMY`
constructor raises `AttributeError` on the very first validation read of
`self.latitude`, so no instance is ever produced. -/
theorem C8_init_attribute_error (latitude longitude : Option ℚ)
    (name : Option String) :
    AMY_init latitude longitude name =
      Except.error (PyError.attributeError ("latitude")) :=
  rfl

end HerbieLoaded
